import Mathlib

/-
  Verification of the maptype type-classification-and-fold engine
  (src/index.ts, with src/config.ts, against the spec's model of the
  external TypeScript resolution context).

  A JS computation that may throw and may print warnings is embedded as
  `M R = List String → Except TsError R × List String`: the warning log is
  threaded as state (console.warn appends to it) and exceptions abort with
  an `Except.error` carrying the thrown error, preserving the log produced
  so far.
-/

/-- Errors the engine can throw.
  `unknownPrimitive` models `throw Error("Unknown primitive type")`;
  `unknownType fs` models `throw Error("Unknown type with type flags: " + extractFlags(type.flags))`;
  `crash` models a JavaScript runtime TypeError from dereferencing an
  `undefined` value that a non-null assertion (`!`) let through. -/
inductive TsError where
  | unknownPrimitive
  | unknownType (flags : List Nat)
  | crash
deriving DecidableEq, Repr

/-- Effectful JS computation: state = warning log, result = value or thrown error. -/
def M (R : Type) : Type := List String → Except TsError R × List String

/-- Embedding of a pure JS expression. -/
def M.pure {R : Type} (r : R) : M R := fun w => (Except.ok r, w)

/-- Embedding of `throw e`. -/
def M.throw {R : Type} (e : TsError) : M R := fun w => (Except.error e, w)

/-- Sequencing: run `x`; on success feed its value to `f`, on a thrown error propagate. -/
def M.bind {R S : Type} (x : M R) (f : R → M S) : M S := fun w =>
  match x w with
  | (Except.ok r, w') => f r w'
  | (Except.error e, w') => (Except.error e, w')

/-- The value a literal handler receives: the JS union `boolean | number | string`
  from `TypeMap.literal`'s parameter type in src/index.ts. -/
inductive JsVal where
  | str (s : String)
  | num (n : Int)
  | bool (b : Bool)
deriving DecidableEq, Repr

/-- Modelled from the spec: the structural predicates imported from src/type.ts
  (`isLiteralType`, `isPrimitiveType`, `isBasicObjectType`, `isRecordType`,
  `isTupleType`, `isArrayType`, `isStringIndexedObjectType`, `isNumberIndexedType`,
  `isFunctionType`, `isObjectType`, `isVoid`, `isAnyOrUnknown`) are not under src/;
  per spec §6 the resolution context answers each structural question about a
  handle, so each predicate is carried as an abstract query-result bit on the
  handle, together with the scalar data the context reports:
  `flags` (the type's bitmask), `display` (`checker.typeToString`),
  `isUnion`/`isIntersection` (`type.isUnion()`/`type.isIntersection()`) and
  `hasRestElement` (the tuple's rest-element marker). -/
structure TsData where
  flags : Nat
  display : String
  isLiteral : Bool
  isPrimitive : Bool
  isBasicObject : Bool
  isRecord : Bool
  isUnion : Bool
  isIntersection : Bool
  isTuple : Bool
  hasRestElement : Bool
  isArray : Bool
  isStringIndexed : Bool
  isNumberIndexed : Bool
  isFunction : Bool
  isObject : Bool
  isVoid : Bool
  isAnyOrUnknown : Bool
deriving DecidableEq, Repr

mutual
/-- A type handle together with the structural answers the resolution context
  gives for it (spec §6): alias type arguments (for `Record`-like aliases, which
  per §4.2 item 4 expose exactly two), union/intersection members (`type.types`),
  tuple element list (`typeArguments`; per §4.2 item 7 the rest portion, if any,
  is not part of it), the element type reachable through the numeric index
  accessor (`getNumberIndexType()`), the string index signature's target
  (`getStringIndexType()`), and the enumerable properties. -/
inductive TsType where
  | mk (data : TsData)
       (aliasTypeArguments : List TsType)
       (types : List TsType)
       (typeArguments : List TsType)
       (numberIndexType : Option TsType)
       (stringIndexType : Option TsType)
       (properties : List TsProp)

/-- An enumerable property: its name (`p.name`), whether its value declaration
  carries a `questionToken`, and its declared type at its declaration site
  (`checker.getTypeOfSymbolAtLocation(p, p.valueDeclaration)`). -/
inductive TsProp where
  | mk (name : String) (questionToken : Bool) (type : TsType)
end

def TsType.data : TsType → TsData
  | .mk d _ _ _ _ _ _ => d

def TsType.aliasTypeArguments : TsType → List TsType
  | .mk _ a _ _ _ _ _ => a

def TsType.types : TsType → List TsType
  | .mk _ _ ts _ _ _ _ => ts

def TsType.typeArguments : TsType → List TsType
  | .mk _ _ _ args _ _ _ => args

def TsType.numberIndexType : TsType → Option TsType
  | .mk _ _ _ _ n _ _ => n

def TsType.stringIndexType : TsType → Option TsType
  | .mk _ _ _ _ _ s _ => s

def TsType.properties : TsType → List TsProp
  | .mk _ _ _ _ _ _ ps => ps

def TsProp.name : TsProp → String
  | .mk n _ _ => n

def TsProp.questionToken : TsProp → Bool
  | .mk _ q _ => q

def TsProp.type : TsProp → TsType
  | .mk _ _ t => t

/-- The key type `ObjectKeyType = string | number | symbol`; the engine only ever
  passes `p.name`, a string. -/
abbrev ObjectKeyType := String

/-- Payload of the `object` handler (src/index.ts lines 34-37). -/
structure ObjectPayload (R : Type) where
  properties : List (ObjectKeyType × (Unit → M R))
  optionalProperties : List (ObjectKeyType × (Unit → M R))

/-- Payload of the `function` handler (line 38); `ret` embeds the field named
  `return` in the source (a Lean keyword), and an absent/null return thunk is
  `none`. -/
structure FunctionPayload (R : Type) where
  args : List (Unit → M R)
  ret : Option (Unit → M R)

/-- Payload of the `record` handler (line 39). -/
structure RecordPayload (R : Type) where
  key : Unit → M R
  value : Unit → M R

/-- The caller-supplied handler set `TypeMap<R>` (src/index.ts lines 21-44).
  A JS handler of type `(a: () => R) => R` embeds as `(Unit → M R) → M R`:
  it receives a thunk whose invocation may recurse (and so may warn or throw),
  and its own body is a computation in `M`. Zero-argument handlers embed as
  `M R` directly. -/
structure TypeMap (R : Type) where
  literal : JsVal → M R
  void : M R
  string : M R
  number : M R
  boolean : M R
  null : M R
  undefined : M R
  any : M R
  unknown : M R
  emptyObject : M R
  stringIndexObject : (Unit → M R) → M R
  numberIndexObject : (Unit → M R) → M R
  object : ObjectPayload R → M R
  function : FunctionPayload R → M R
  record : RecordPayload R → M R
  array : (Unit → M R) → M R
  union : List (Unit → M R) → M R
  intersection : List (Unit → M R) → M R
  tuple : List (Unit → M R) → M R

/-- Modelled from the spec: src/flags.ts is not under src/; per §4.1 the
  decomposition of a non-negative bitmask lists its constituent distinct powers
  of two from highest bit to lowest, summing to the mask, with
  `extractFlags 0 = []` (behaviour pinned by the repository's unit tests:
  `extractFlags 10 = [8, 2]`, `extractFlags 100 = [64, 32, 4]`). -/
def extractFlags (mask : Nat) : List Nat :=
  ((List.range (mask + 1)).filterMap
    (fun i => if Nat.testBit mask i then some (2 ^ i) else none)).reverse

/-- The text of the `console.warn` on tuple rest elements (src/index.ts line 118). -/
def tupleRestWarning : String := "Tuple rest elements are not currently supported"

/-- The properties the source keeps in `requiredProperties` (src/index.ts lines 60-62):
  those whose value declaration has no `questionToken`. -/
def requiredProperties (t : TsType) : List TsProp :=
  t.properties.filter (fun p => !p.questionToken)

/-- The properties the source keeps in `optionalProperties` (lines 63-65):
  those whose value declaration has a `questionToken`. -/
def optionalProperties (t : TsType) : List TsProp :=
  t.properties.filter (fun p => p.questionToken)

lemma List.sizeOf_pos' {α : Type} [SizeOf α] (l : List α) : 0 < sizeOf l := by
  cases l <;> simp_arith

lemma List.sizeOf_filter_le {α : Type} [SizeOf α] (p : α → Bool) (l : List α) :
    sizeOf (l.filter p) ≤ sizeOf l := by
  induction l with
  | nil => simp [List.filter]
  | cons a l ih =>
    have hc : sizeOf (a :: l) = 1 + sizeOf a + sizeOf l := by simp
    by_cases h : p a = true
    · rw [List.filter_cons_of_pos h]
      have hc' : sizeOf (a :: l.filter p) = 1 + sizeOf a + sizeOf (l.filter p) := by simp
      omega
    · rw [List.filter_cons_of_neg h]
      omega

lemma List.sizeOf_getElem?_le {α : Type} [SizeOf α] (l : List α) (i : Nat) :
    sizeOf l[i]? ≤ sizeOf l := by
  cases h : l[i]? with
  | none =>
    have h1 := List.sizeOf_pos' l
    have h2 : sizeOf (none : Option α) = 1 := by simp
    omega
  | some a =>
    have ha : a ∈ l := by
      obtain ⟨hlt, he⟩ := List.getElem?_eq_some_iff.mp h
      exact he ▸ List.getElem_mem hlt
    have h1 := List.sizeOf_lt_of_mem ha
    have h2 : sizeOf (some a) = 1 + sizeOf a := by simp
    omega

lemma TsType.sizeOf_aliasTypeArguments_lt (t : TsType) :
    sizeOf t.aliasTypeArguments < sizeOf t := by
  cases t; simp [TsType.aliasTypeArguments]; omega

lemma TsType.sizeOf_types_lt (t : TsType) : sizeOf t.types < sizeOf t := by
  cases t; simp [TsType.types]; omega

lemma TsType.sizeOf_typeArguments_lt (t : TsType) : sizeOf t.typeArguments < sizeOf t := by
  cases t; simp [TsType.typeArguments]; omega

lemma TsType.sizeOf_numberIndexType_lt (t : TsType) : sizeOf t.numberIndexType < sizeOf t := by
  cases t; simp [TsType.numberIndexType]; omega

lemma TsType.sizeOf_stringIndexType_lt (t : TsType) : sizeOf t.stringIndexType < sizeOf t := by
  cases t; simp [TsType.stringIndexType]; omega

lemma TsType.sizeOf_properties_lt (t : TsType) : sizeOf t.properties < sizeOf t := by
  cases t; simp [TsType.properties]

lemma TsProp.sizeOf_type_lt (p : TsProp) : sizeOf p.type < sizeOf p := by
  cases p; simp [TsProp.type]

mutual
/-- The fold engine `processType` (src/index.ts lines 78-148): run the source's
  if-else chain over the handle, in source order, and dispatch to the matching
  handler, passing nested types as zero-argument thunks. -/
def processType {R : Type} (H : TypeMap R) (t : TsType) : M R :=
  if t.data.isLiteral then
    -- lines 81-83: typemap.literal(checker.typeToString(type))
    H.literal (JsVal.str t.data.display)
  else if t.data.isPrimitive then
    -- lines 84-98: switch on the canonical textual name
    match t.data.display with
    | "string" => H.string
    | "number" => H.number
    | "boolean" => H.boolean
    | "null" => H.null
    | "undefined" => H.undefined
    | _ => M.throw TsError.unknownPrimitive
  else if t.data.isBasicObject then
    H.emptyObject
  else if t.data.isRecord then
    -- lines 101-106: const [key, value] = type.aliasTypeArguments!
    H.record { key := fun _ => processTypeOpt H t.aliasTypeArguments[0]?
             , value := fun _ => processTypeOpt H t.aliasTypeArguments[1]? }
  else if t.data.isUnion then
    H.union (processList H t.types)
  else if t.data.isIntersection then
    H.intersection (processList H t.types)
  else if t.data.isTuple then
    -- lines 115-124: console.warn on a rest element, then map the element list
    fun w =>
      H.tuple (processList H t.typeArguments)
        (if t.data.hasRestElement then w ++ [tupleRestWarning] else w)
  else if t.data.isArray then
    -- lines 125-128: the thunk resolves type.getNumberIndexType()!
    H.array (fun _ => processTypeOpt H t.numberIndexType)
  else if t.data.isStringIndexed then
    -- lines 129-132: the thunk resolves type.getStringIndexType()!
    H.stringIndexObject (fun _ => processTypeOpt H t.stringIndexType)
  else if t.data.isNumberIndexed then
    -- lines 133-136: the thunk also resolves type.getStringIndexType()!
    H.numberIndexObject (fun _ => processTypeOpt H t.stringIndexType)
  else if t.data.isFunction then
    -- lines 137-139: argument and return types are not resolved
    H.function { args := [], ret := none }
  else if t.data.isObject then
    processObjectType H t
  else if t.data.isVoid then
    H.void
  else if t.data.isAnyOrUnknown then
    H.unknown
  else
    -- line 147: throw Error("Unknown type with type flags: " + extractFlags(type.flags))
    M.throw (TsError.unknownType (extractFlags t.data.flags))
termination_by (sizeOf t, 1)
decreasing_by
  all_goals
    (have ha := TsType.sizeOf_aliasTypeArguments_lt t
     have ha0 := List.sizeOf_getElem?_le t.aliasTypeArguments 0
     have ha1 := List.sizeOf_getElem?_le t.aliasTypeArguments 1
     have hty := TsType.sizeOf_types_lt t
     have htu := TsType.sizeOf_typeArguments_lt t
     have hni := TsType.sizeOf_numberIndexType_lt t
     have hsi := TsType.sizeOf_stringIndexType_lt t
     decreasing_tactic)

/-- `processObjectType` (lines 54-76): partition the enumerated properties on
  the `questionToken` and hand both ordered (key, thunk) lists to the object
  handler. -/
def processObjectType {R : Type} (H : TypeMap R) (t : TsType) : M R :=
  H.object { properties := processProps H (requiredProperties t)
           , optionalProperties := processProps H (optionalProperties t) }
termination_by (sizeOf t, 0)
decreasing_by
  all_goals
    (have hp := TsType.sizeOf_properties_lt t
     have h1 : sizeOf (requiredProperties t) ≤ sizeOf t.properties :=
       List.sizeOf_filter_le _ _
     have h2 : sizeOf (optionalProperties t) ≤ sizeOf t.properties :=
       List.sizeOf_filter_le _ _
     decreasing_tactic)

/-- `processProperty` (lines 46-52): fold the property's declared type
  (`checker.getTypeOfSymbolAtLocation(s, s.valueDeclaration)`). -/
def processProperty {R : Type} (H : TypeMap R) (p : TsProp) : M R :=
  processType H p.type
termination_by (sizeOf p, 0)
decreasing_by
  all_goals
    (have h1 := TsProp.sizeOf_type_lt p
     decreasing_tactic)

/-- The `.map((p) => [p.name, () => propertyProcessor(p)])` step of lines 66-75. -/
def processProps {R : Type} (H : TypeMap R) : List TsProp → List (ObjectKeyType × (Unit → M R))
  | [] => []
  | p :: ps => (p.name, fun _ => processProperty H p) :: processProps H ps
termination_by ps => (sizeOf ps, 1)

/-- The `.map((type) => () => processType(typemap)(checker)(type))` step used by
  the union, intersection and tuple branches. -/
def processList {R : Type} (H : TypeMap R) : List TsType → List (Unit → M R)
  | [] => []
  | u :: us => (fun _ => processType H u) :: processList H us
termination_by us => (sizeOf us, 0)

/-- Applying the engine to a possibly-undefined handle: a JS call
  `processType(typemap)(checker)(undefined)` (what a failed non-null assertion
  lets through) crashes with a TypeError at the first structural query. -/
def processTypeOpt {R : Type} (H : TypeMap R) : Option TsType → M R
  | some u => processType H u
  | none => M.throw TsError.crash
termination_by o => (sizeOf o, 0)
end

/-- The configuration record of src/config.ts. -/
structure TsToIoConfig where
  followImports : Bool
  includeHeader : Bool
  fileNames : List String
deriving DecidableEq, Repr

/-- `DEFAULT_FILE_NAME` from src/config.ts. -/
def DEFAULT_FILE_NAME : String := "maptype.ts"

/-- `defaultConfig` from src/config.ts. -/
def defaultConfig : TsToIoConfig :=
  { followImports := false, includeHeader := true, fileNames := [] }

/-- Modelled from the spec: the syntactic layer (`ts.Node`, the program, and the
  checker's symbol resolution inside `handleDeclaration`, src/index.ts lines
  150-177) belongs to the external resolution context. Per §4.5 a visited
  top-level statement is one of: a declaration of one of the three supported
  shapes (type alias, interface, single-binding variable statement), already
  resolved by the context to its bound name and type handle; a namespace/
  module-like container with a body of statements; or any other statement kind.
  Each node carries the file name of its originating source
  (`node.getSourceFile().fileName`). -/
inductive Stmt where
  | decl (name : String) (type : TsType) (fileName : String)
  | module (body : List Stmt) (fileName : String)
  | other (fileName : String)

/-- `handleDeclaration` (src/index.ts lines 150-177): the external checker
  resolves the node to its symbol name and type handle; the fold's result is
  paired with the name, and any error thrown by the fold propagates (the catch
  block rethrows). -/
def handleDeclaration {R : Type} (H : TypeMap R) (name : String) (t : TsType) :
    M (String × R) :=
  M.bind (processType H t) (fun r => M.pure (name, r))

mutual
/-- `visit` (src/index.ts lines 179-200): skip nodes whose originating file is
  not recognized when `followImports` is off; for the three declaration shapes
  push the handled declaration onto the result; for a module declaration recurse
  into its children with the same visitor (`ts.forEachChild`); ignore every
  other statement kind. The mutable `result` array is embedded by returning the
  node's ordered contribution to it. -/
def visit {R : Type} (H : TypeMap R) (cfg : TsToIoConfig) : Stmt → M (List (String × R))
  | .decl name t fileName =>
      if !cfg.followImports && !(cfg.fileNames.contains fileName) then M.pure []
      else M.bind (handleDeclaration H name t) (fun b => M.pure [b])
  | .module body fileName =>
      if !cfg.followImports && !(cfg.fileNames.contains fileName) then M.pure []
      else visitList H cfg body
  | .other _ => M.pure []
termination_by s => sizeOf s

/-- `ts.forEachChild` over a statement sequence: visit each child in document
  order, concatenating the contributions. -/
def visitList {R : Type} (H : TypeMap R) (cfg : TsToIoConfig) :
    List Stmt → M (List (String × R))
  | [] => M.pure []
  | s :: ss =>
      M.bind (visit H cfg s) (fun rs =>
        M.bind (visitList H cfg ss) (fun rss => M.pure (rs ++ rss)))
termination_by ss => sizeOf ss
end

/-- `processTypes` (src/index.ts lines 206-248). Modelled from the spec:
  constructing the program and checker from the source text (`ts.createProgram`
  with the compiler host that serves the in-memory buffer under
  `DEFAULT_FILE_NAME`) is external, so the entry source is given as its list of
  top-level statements in document order and the driver folds the visitor over
  them, collecting the ordered (name, result) pairs. The source's default
  config is `{ ...defaultConfig, fileNames: [DEFAULT_FILE_NAME] }`. -/
def processTypes {R : Type} (H : TypeMap R) (sourceStmts : List Stmt)
    (cfg : TsToIoConfig) : M (List (String × R)) :=
  visitList H cfg sourceStmts

/-- A handler set over `R = String` that returns the invoked handler's name and
  discards every supplied thunk; used to observe which handler the engine
  dispatches to. -/
def tagMap : TypeMap String where
  literal := fun _ => M.pure "literal"
  void := M.pure "void"
  string := M.pure "string"
  number := M.pure "number"
  boolean := M.pure "boolean"
  null := M.pure "null"
  undefined := M.pure "undefined"
  any := M.pure "any"
  unknown := M.pure "unknown"
  emptyObject := M.pure "emptyObject"
  stringIndexObject := fun _ => M.pure "stringIndexObject"
  numberIndexObject := fun _ => M.pure "numberIndexObject"
  object := fun _ => M.pure "object"
  function := fun _ => M.pure "function"
  record := fun _ => M.pure "record"
  array := fun _ => M.pure "array"
  union := fun _ => M.pure "union"
  intersection := fun _ => M.pure "intersection"
  tuple := fun _ => M.pure "tuple"

/-- `tagMap` with a `numberIndexObject` handler that invokes its element thunk;
  used to observe what the thunk does when invoked. -/
def probeMap : TypeMap String :=
  { tagMap with numberIndexObject := fun a => a () }

/-- All structural query bits reported false: such a handle falls through every
  branch of the classification chain. -/
def blankData : TsData where
  flags := 0
  display := ""
  isLiteral := false
  isPrimitive := false
  isBasicObject := false
  isRecord := false
  isUnion := false
  isIntersection := false
  isTuple := false
  hasRestElement := false
  isArray := false
  isStringIndexed := false
  isNumberIndexed := false
  isFunction := false
  isObject := false
  isVoid := false
  isAnyOrUnknown := false

/-- A handle with the given data and no nested structure. -/
def leafType (d : TsData) : TsType :=
  TsType.mk d [] [] [] none none []

lemma processType_any_aux {R : Type} (H : TypeMap R) (g : M R) :
    ∀ n : Nat,
      (∀ t : TsType, sizeOf t ≤ n →
        processType { H with any := g } t = processType H t) ∧
      (∀ o : Option TsType, sizeOf o ≤ n →
        processTypeOpt { H with any := g } o = processTypeOpt H o) ∧
      (∀ l : List TsType, sizeOf l ≤ n →
        processList { H with any := g } l = processList H l) ∧
      (∀ p : TsProp, sizeOf p ≤ n →
        processProperty { H with any := g } p = processProperty H p) ∧
      (∀ ps : List TsProp, sizeOf ps ≤ n →
        processProps { H with any := g } ps = processProps H ps) ∧
      (∀ t : TsType, sizeOf t ≤ n →
        processObjectType { H with any := g } t = processObjectType H t) := by
  intro n
  induction n using Nat.strong_induction_on with
  | _ n ih =>
    have hTs : ∀ t : TsType, sizeOf t < n →
        processType { H with any := g } t = processType H t := by
      intro t ht
      exact (ih (n - 1) (by omega)).1 t (by omega)
    have hOpts : ∀ o : Option TsType, sizeOf o < n →
        processTypeOpt { H with any := g } o = processTypeOpt H o := by
      intro o ho
      exact (ih (n - 1) (by omega)).2.1 o (by omega)
    have hLists : ∀ l : List TsType, sizeOf l < n →
        processList { H with any := g } l = processList H l := by
      intro l hl
      exact (ih (n - 1) (by omega)).2.2.1 l (by omega)
    have hPropsS : ∀ ps : List TsProp, sizeOf ps < n →
        processProps { H with any := g } ps = processProps H ps := by
      intro ps hps
      exact (ih (n - 1) (by omega)).2.2.2.2.1 ps (by omega)
    have hObjLe : ∀ t : TsType, sizeOf t ≤ n →
        processObjectType { H with any := g } t = processObjectType H t := by
      intro t ht
      have hp := TsType.sizeOf_properties_lt t
      have hr : sizeOf (requiredProperties t) ≤ sizeOf t.properties :=
        List.sizeOf_filter_le _ _
      have ho : sizeOf (optionalProperties t) ≤ sizeOf t.properties :=
        List.sizeOf_filter_le _ _
      have e1 := hPropsS (requiredProperties t) (by omega)
      have e2 := hPropsS (optionalProperties t) (by omega)
      simp only [processObjectType, e1, e2]
    have hTLe : ∀ t : TsType, sizeOf t ≤ n →
        processType { H with any := g } t = processType H t := by
      intro t ht
      have sa := TsType.sizeOf_aliasTypeArguments_lt t
      have sa0 := List.sizeOf_getElem?_le t.aliasTypeArguments 0
      have sa1 := List.sizeOf_getElem?_le t.aliasTypeArguments 1
      have sty := TsType.sizeOf_types_lt t
      have stu := TsType.sizeOf_typeArguments_lt t
      have sni := TsType.sizeOf_numberIndexType_lt t
      have ssi := TsType.sizeOf_stringIndexType_lt t
      have e0 := hOpts t.aliasTypeArguments[0]? (by omega)
      have e1 := hOpts t.aliasTypeArguments[1]? (by omega)
      have e2 := hLists t.types (by omega)
      have e3 := hLists t.typeArguments (by omega)
      have e4 := hOpts t.numberIndexType (by omega)
      have e5 := hOpts t.stringIndexType (by omega)
      have e6 := hObjLe t ht
      simp only [processType, e0, e1, e2, e3, e4, e5, e6]
    have hOptLe : ∀ o : Option TsType, sizeOf o ≤ n →
        processTypeOpt { H with any := g } o = processTypeOpt H o := by
      intro o ho
      cases o with
      | none => simp only [processTypeOpt]
      | some u =>
        have : sizeOf (some u) = 1 + sizeOf u := by simp
        simp only [processTypeOpt]
        exact hTLe u (by omega)
    have hListLe : ∀ l : List TsType, sizeOf l ≤ n →
        processList { H with any := g } l = processList H l := by
      intro l
      induction l with
      | nil => intro _; simp only [processList]
      | cons u us ihl =>
        intro hl
        have hc : sizeOf (u :: us) = 1 + sizeOf u + sizeOf us := by simp
        simp only [processList]
        rw [hTLe u (by omega), ihl (by omega)]
    have hPropLe : ∀ p : TsProp, sizeOf p ≤ n →
        processProperty { H with any := g } p = processProperty H p := by
      intro p hp
      have := TsProp.sizeOf_type_lt p
      simp only [processProperty]
      exact hTLe p.type (by omega)
    have hPropsLe : ∀ ps : List TsProp, sizeOf ps ≤ n →
        processProps { H with any := g } ps = processProps H ps := by
      intro ps
      induction ps with
      | nil => intro _; simp only [processProps]
      | cons p ps ihp =>
        intro hps
        have hc : sizeOf (p :: ps) = 1 + sizeOf p + sizeOf ps := by simp
        simp only [processProps]
        rw [hPropLe p (by omega), ihp (by omega)]
    exact ⟨hTLe, hOptLe, hListLe, hPropLe, hPropsLe, hObjLe⟩

/-- The engine never consults the handler set's `any` handler: replacing it
  changes nothing. -/
lemma processType_any_irrelevant {R : Type} (H : TypeMap R) (g : M R) (t : TsType) :
    processType { H with any := g } t = processType H t :=
  (processType_any_aux H g (sizeOf t)).1 t le_rfl

/-- `processList` is exactly the source's `.map((type) => () => processType(...)(type))`. -/
lemma processList_eq_map {R : Type} (H : TypeMap R) (l : List TsType) :
    processList H l = l.map (fun u => fun _ => processType H u) := by
  induction l with
  | nil => simp [processList]
  | cons u us ih => simp [processList, ih]

/-- `processProps` is exactly the source's `.map((p) => [p.name, () => propertyProcessor(p)])`. -/
lemma processProps_eq_map {R : Type} (H : TypeMap R) (ps : List TsProp) :
    processProps H ps = ps.map (fun p => (p.name, fun _ => processProperty H p)) := by
  induction ps with
  | nil => simp [processProps]
  | cons p ps ih => simp [processProps, ih]

/-- Visiting a concatenation of statement sequences: the contributions appear in
  order, and a thrown error while visiting the first part aborts the rest. -/
lemma visitList_append {R : Type} (H : TypeMap R) (cfg : TsToIoConfig)
    (l1 l2 : List Stmt) (w : List String) :
    visitList H cfg (l1 ++ l2) w =
      match visitList H cfg l1 w with
      | (Except.ok r1, w1) =>
        (match visitList H cfg l2 w1 with
         | (Except.ok r2, w2) => (Except.ok (r1 ++ r2), w2)
         | (Except.error e, w2) => (Except.error e, w2))
      | (Except.error e, w1) => (Except.error e, w1) := by
  induction l1 generalizing w with
  | nil =>
    simp only [List.nil_append, visitList, M.pure]
    cases h2 : visitList H cfg l2 w with
    | mk res w2 => cases res <;> simp [h2]
  | cons s ss ih =>
    simp only [List.cons_append, visitList, M.bind]
    cases hs : visit H cfg s w with
    | mk res w1 =>
      cases res with
      | error e => simp [hs]
      | ok rs =>
        simp only [hs, ih]
        cases hss : visitList H cfg ss w1 with
        | mk res2 w2 =>
          cases res2 with
          | error e => simp [hss]
          | ok rss =>
            simp only [hss]
            cases hl2 : visitList H cfg l2 w2 with
            | mk res3 w3 =>
              cases res3 <;> simp [hl2, M.pure, M.bind]

/-- A handle on which every structural query of the classification chain comes
  back negative: it matches none of the known categories. -/
def unclassified (t : TsType) : Prop :=
  t.data.isLiteral = false ∧ t.data.isPrimitive = false ∧ t.data.isBasicObject = false ∧
  t.data.isRecord = false ∧ t.data.isUnion = false ∧ t.data.isIntersection = false ∧
  t.data.isTuple = false ∧ t.data.isArray = false ∧ t.data.isStringIndexed = false ∧
  t.data.isNumberIndexed = false ∧ t.data.isFunction = false ∧ t.data.isObject = false ∧
  t.data.isVoid = false ∧ t.data.isAnyOrUnknown = false

instance (t : TsType) : Decidable (unclassified t) := by
  unfold unclassified
  infer_instance

/-- Falling through the whole chain throws the flag-carrying error, leaving the
  warning log untouched. -/
lemma processType_unclassified {R : Type} (H : TypeMap R) (t : TsType)
    (h : unclassified t) (w : List String) :
    processType H t w = (Except.error (TsError.unknownType (extractFlags t.data.flags)), w) := by
  obtain ⟨h1, h2, h3, h4, h5, h6, h7, h8, h9, h10, h11, h12, h13, h14⟩ := h
  rw [processType]
  simp [h1, h2, h3, h4, h5, h6, h7, h8, h9, h10, h11, h12, h13, h14, M.throw]

/-- The `string` primitive handle. -/
def strType : TsType :=
  leafType { blankData with isPrimitive := true, display := "string", flags := 4 }

/-- The `number` primitive handle. -/
def numType : TsType :=
  leafType { blankData with isPrimitive := true, display := "number", flags := 8 }

/-- A numeric-literal handle; the context's textual rendering of it is "0". -/
def litZeroType : TsType :=
  leafType { blankData with isLiteral := true, display := "0" }

/-- A handle passing both the tuple test and the array test: one fixed element
  of type string, a usable numeric index accessor, no rest element. -/
def tupleArrayType : TsType :=
  TsType.mk { blankData with isTuple := true, isArray := true }
    [] [] [strType] (some strType) none []

/-- A handle matching no category, with flags 10 = 8 + 2. -/
def badType : TsType := leafType { blankData with flags := 10 }

/-- A tuple declaring a rest element; its element list holds the fixed elements. -/
def restTupleType : TsType :=
  TsType.mk { blankData with isTuple := true, hasRestElement := true }
    [] [] [strType] none none []

/-- A callable handle. -/
def funcType : TsType := leafType { blankData with isFunction := true }

/-- An `any`/`unknown` handle. -/
def anyType : TsType := leafType { blankData with isAnyOrUnknown := true, display := "any" }

/-- A handle with a numeric index signature (element type string) and no string
  index signature. -/
def numIndexNoStrType : TsType :=
  TsType.mk { blankData with isNumberIndexed := true } [] [] [] (some strType) none []

/-- An object handle with one required and one optional property. -/
def objType : TsType :=
  TsType.mk { blankData with isObject := true } [] [] [] none none
    [TsProp.mk "foo" false strType, TsProp.mk "bar" true numType]

/-- An array whose element handle matches no category. -/
def arrayOfBadType : TsType :=
  TsType.mk { blankData with isArray := true } [] [] [] (some badType) none []

/-- An array of string, with the same top-level data as `arrayOfBadType`. -/
def arrayOfStrType : TsType :=
  TsType.mk { blankData with isArray := true } [] [] [] (some strType) none []

/-- The config `processTypes` defaults to: recognize only the in-memory entry file. -/
def entryConfig : TsToIoConfig := { defaultConfig with fileNames := [DEFAULT_FILE_NAME] }

/-- C1: a type handle that satisfies both the tuple test and the array test
  (reaching that stage of the chain with the earlier checks failed, as the
  spec's precedence list assumes) is dispatched to the tuple handler, not the
  array handler: the tuple branch of `processType` is evaluated before the
  array branch. -/
theorem tuple_precedes_array {R : Type} (H : TypeMap R) (t : TsType) (w : List String)
    (h1 : t.data.isLiteral = false) (h2 : t.data.isPrimitive = false)
    (h3 : t.data.isBasicObject = false) (h4 : t.data.isRecord = false)
    (h5 : t.data.isUnion = false) (h6 : t.data.isIntersection = false)
    (h7 : t.data.isTuple = true) (_h8 : t.data.isArray = true) :
    processType H t w = H.tuple (processList H t.typeArguments)
      (if t.data.hasRestElement then w ++ [tupleRestWarning] else w) := by
  rw [processType]
  simp [h1, h2, h3, h4, h5, h6, h7]

/-- C1 witness: a concrete handle with both the tuple and the array bit set is
  folded by the tuple handler. -/
theorem tuple_precedes_array_witness :
    processType tagMap tupleArrayType [] = (Except.ok "tuple", []) := by
  have h := tuple_precedes_array tagMap tupleArrayType [] rfl rfl rfl rfl rfl rfl rfl rfl
  rw [h]
  simp [tupleArrayType, blankData, tagMap, M.pure, TsType.data]

/-- C5: a tuple type that declares a rest element is processed by appending the
  non-fatal warning to the log and handing the tuple handler thunks for exactly
  the fixed element list; the outcome is whatever the handler produces — the
  engine introduces no error. -/
theorem tuple_rest_warns {R : Type} (H : TypeMap R) (t : TsType) (w : List String)
    (h1 : t.data.isLiteral = false) (h2 : t.data.isPrimitive = false)
    (h3 : t.data.isBasicObject = false) (h4 : t.data.isRecord = false)
    (h5 : t.data.isUnion = false) (h6 : t.data.isIntersection = false)
    (h7 : t.data.isTuple = true) (hrest : t.data.hasRestElement = true) :
    processType H t w = H.tuple (processList H t.typeArguments) (w ++ [tupleRestWarning]) := by
  rw [processType]
  simp [h1, h2, h3, h4, h5, h6, h7, hrest]

/-- C5 witness: the concrete rest-element tuple completes successfully with the
  warning recorded. -/
theorem tuple_rest_warns_witness :
    processType tagMap restTupleType [] = (Except.ok "tuple", [tupleRestWarning]) := by
  have h := tuple_rest_warns tagMap restTupleType [] rfl rfl rfl rfl rfl rfl rfl rfl
  rw [h]
  simp [tagMap, M.pure]

/-- C7: a type classified as Function is dispatched to the function handler
  with an empty argument list and an absent return thunk; no argument or return
  type is resolved or folded. -/
theorem function_unresolved {R : Type} (H : TypeMap R) (t : TsType) (w : List String)
    (h1 : t.data.isLiteral = false) (h2 : t.data.isPrimitive = false)
    (h3 : t.data.isBasicObject = false) (h4 : t.data.isRecord = false)
    (h5 : t.data.isUnion = false) (h6 : t.data.isIntersection = false)
    (h7 : t.data.isTuple = false) (h8 : t.data.isArray = false)
    (h9 : t.data.isStringIndexed = false) (h10 : t.data.isNumberIndexed = false)
    (hf : t.data.isFunction = true) :
    processType H t w = H.function { args := [], ret := none } w := by
  rw [processType]
  simp [h1, h2, h3, h4, h5, h6, h7, h8, h9, h10, hf]

/-- C7 witness: the concrete callable handle reaches the function handler with
  empty args and no return thunk. -/
theorem function_unresolved_witness :
    processType tagMap funcType [] = (Except.ok "function", []) := by
  have h := function_unresolved tagMap funcType [] rfl rfl rfl rfl rfl rfl rfl rfl rfl rfl rfl
  rw [h]
  simp [tagMap, M.pure]

/-- C9: a literal type's handler is applied directly — at dispatch, not through
  a thunk — to the context's textual rendering of the type, always injected as
  a string value (`JsVal.str`), even for numeric and boolean literals although
  the handler's parameter type also admits numbers and booleans. -/
theorem literal_textual_eager {R : Type} (H : TypeMap R) (t : TsType) (w : List String)
    (h : t.data.isLiteral = true) :
    processType H t w = H.literal (JsVal.str t.data.display) w := by
  rw [processType]
  simp [h]

/-- C9 witness: the numeric-literal handle whose rendering is "0" reaches the
  literal handler as the string value `JsVal.str "0"`. -/
theorem literal_textual_eager_witness :
    processType tagMap litZeroType [] = tagMap.literal (JsVal.str "0") [] :=
  literal_textual_eager tagMap litZeroType [] rfl

/-- C10: the element thunk handed to the numberIndexObject handler folds the
  type obtained through the context's string index accessor
  (`getStringIndexType`), not the numeric index accessor; when the handle has no
  string index signature, the thunk therefore operates on an absent (undefined)
  element, crashing if invoked. -/
theorem number_index_uses_string_accessor {R : Type} (H : TypeMap R) (t : TsType)
    (w : List String)
    (h1 : t.data.isLiteral = false) (h2 : t.data.isPrimitive = false)
    (h3 : t.data.isBasicObject = false) (h4 : t.data.isRecord = false)
    (h5 : t.data.isUnion = false) (h6 : t.data.isIntersection = false)
    (h7 : t.data.isTuple = false) (h8 : t.data.isArray = false)
    (h9 : t.data.isStringIndexed = false) (hn : t.data.isNumberIndexed = true) :
    processType H t w =
      H.numberIndexObject (fun _ => processTypeOpt H t.stringIndexType) w ∧
    (t.stringIndexType = none →
      processTypeOpt H t.stringIndexType = M.throw TsError.crash) := by
  constructor
  · rw [processType]
    simp [h1, h2, h3, h4, h5, h6, h7, h8, h9, hn]
  · intro hnone
    rw [hnone, processTypeOpt]

/-- C10 witness: a handle with a numeric index signature (element type present
  through the numeric accessor) but no string index signature is dispatched to
  the numberIndexObject handler, and a handler that invokes its element thunk
  crashes on the absent string-index element type. -/
theorem number_index_uses_string_accessor_witness :
    processType probeMap numIndexNoStrType [] = (Except.error TsError.crash, []) := by
  have h := number_index_uses_string_accessor probeMap numIndexNoStrType []
    rfl rfl rfl rfl rfl rfl rfl rfl rfl rfl
  rw [h.1]
  have h2 := h.2 rfl
  simp only [h2]
  simp [probeMap, tagMap, M.throw]

/-- C8: a handle that is any/unknown (reaching that stage of the chain) is
  dispatched to the handler set's unknown handler, and the engine never
  consults the handler set's `any` handler on any input: replacing it changes
  no result. -/
theorem any_unknown_unified {R : Type} (H : TypeMap R) (t : TsType) (g : M R) :
    (t.data.isLiteral = false → t.data.isPrimitive = false →
     t.data.isBasicObject = false → t.data.isRecord = false →
     t.data.isUnion = false → t.data.isIntersection = false →
     t.data.isTuple = false → t.data.isArray = false →
     t.data.isStringIndexed = false → t.data.isNumberIndexed = false →
     t.data.isFunction = false → t.data.isObject = false →
     t.data.isVoid = false → t.data.isAnyOrUnknown = true →
     ∀ w, processType H t w = H.unknown w) ∧
    processType { H with any := g } t = processType H t := by
  constructor
  · intro h1 h2 h3 h4 h5 h6 h7 h8 h9 h10 h11 h12 h13 h14 w
    rw [processType]
    simp [h1, h2, h3, h4, h5, h6, h7, h8, h9, h10, h11, h12, h13, h14]
  · exact processType_any_irrelevant H g t

/-- C8 witness: the concrete any/unknown handle reaches the unknown handler,
  and replacing the `any` handler by a crashing one changes nothing. -/
theorem any_unknown_unified_witness :
    processType tagMap anyType [] = tagMap.unknown [] ∧
    processType { tagMap with any := M.throw TsError.crash } anyType =
      processType tagMap anyType :=
  ⟨(any_unknown_unified tagMap anyType (M.throw TsError.crash)).1
      rfl rfl rfl rfl rfl rfl rfl rfl rfl rfl rfl rfl rfl rfl [],
   (any_unknown_unified tagMap anyType (M.throw TsError.crash)).2⟩

/-- C4: the partition performed before invoking the object handler is complete
  and disjoint: required and optional key lists together are a permutation of
  the enumerated property keys; membership in each list is exactly the absence
  or presence of the optionality marker; under distinct keys no key is in both
  lists; both lists are sublists of the enumeration (native order preserved);
  and the object handler receives precisely the two partitioned lists. -/
theorem object_partition_complete_disjoint (t : TsType) :
    List.Perm ((requiredProperties t ++ optionalProperties t).map TsProp.name)
        (t.properties.map TsProp.name) ∧
    (∀ p : TsProp, p ∈ requiredProperties t ↔
        p ∈ t.properties ∧ p.questionToken = false) ∧
    (∀ p : TsProp, p ∈ optionalProperties t ↔
        p ∈ t.properties ∧ p.questionToken = true) ∧
    ((t.properties.map TsProp.name).Nodup →
      ∀ k, k ∈ (requiredProperties t).map TsProp.name →
        k ∉ (optionalProperties t).map TsProp.name) ∧
    List.Sublist (requiredProperties t) t.properties ∧
    List.Sublist (optionalProperties t) t.properties ∧
    (∀ (R : Type) (H : TypeMap R), processObjectType H t =
      H.object { properties := processProps H (requiredProperties t)
               , optionalProperties := processProps H (optionalProperties t) }) := by
  have hperm : List.Perm (requiredProperties t ++ optionalProperties t) t.properties := by
    have h := List.filter_append_perm (fun p : TsProp => !p.questionToken) t.properties
    unfold requiredProperties optionalProperties
    simpa [Bool.not_not] using h
  refine ⟨hperm.map TsProp.name, ?_, ?_, ?_, ?_, ?_, ?_⟩
  · intro p
    unfold requiredProperties
    simp [List.mem_filter]
  · intro p
    unfold optionalProperties
    simp [List.mem_filter]
  · intro hnodup k hk
    have hall : ((requiredProperties t ++ optionalProperties t).map TsProp.name).Nodup :=
      ((hperm.map TsProp.name).nodup_iff).mpr hnodup
    rw [List.map_append] at hall
    have hdisj := (List.nodup_append.mp hall).2.2
    exact fun hk2 => hdisj hk hk2
  · exact List.filter_sublist t.properties
  · exact List.filter_sublist t.properties
  · intro R H
    rw [processObjectType]

/-- C4 witness: on the concrete object handle the partition facts hold and the
  object handler receives the two partitioned lists. -/
theorem object_partition_complete_disjoint_witness :
    (("foo" ∈ (requiredProperties objType).map TsProp.name) ∧
     ("foo" ∉ (optionalProperties objType).map TsProp.name)) ∧
    processObjectType tagMap objType =
      tagMap.object { properties := processProps tagMap (requiredProperties objType)
                    , optionalProperties := processProps tagMap (optionalProperties objType) } :=
  ⟨⟨by decide,
    (object_partition_complete_disjoint objType).2.2.2.1 (by decide) "foo" (by decide)⟩,
   (object_partition_complete_disjoint objType).2.2.2.2.2.2 String tagMap⟩

/-- C2: when a visited declaration's type handle matches none of the known
  categories (here: after any earlier statements were visited successfully),
  the whole run produces a fatal error carrying the decomposed flag list of
  that type and no output sequence at all — neither a partial result for the
  failing declaration nor the results already computed for its completed
  sibling declarations. -/
theorem classification_failure_aborts {R : Type} (H : TypeMap R) (cfg : TsToIoConfig)
    (pre post : List Stmt) (name fileName : String) (t : TsType)
    (rs : List (String × R)) (w w1 : List String)
    (hpre : visitList H cfg pre w = (Except.ok rs, w1))
    (hvis : cfg.followImports = true ∨ cfg.fileNames.contains fileName = true)
    (hbad : unclassified t) :
    processTypes H (pre ++ Stmt.decl name t fileName :: post) cfg w =
      (Except.error (TsError.unknownType (extractFlags t.data.flags)), w1) := by
  have hguard : (!cfg.followImports && !(cfg.fileNames.contains fileName)) = false := by
    rcases hvis with h | h
    · simp [h]
    · rw [h]; simp
  have hfail := processType_unclassified H t hbad w1
  unfold processTypes
  rw [visitList_append, hpre]
  simp only [visitList, visit, hguard, Bool.false_eq_true, if_false,
    M.bind, handleDeclaration, hfail]

/-- C2 witness: a run with one successfully classifiable declaration followed
  by an unclassifiable one (flags 10) aborts with the decomposed flag list
  [8, 2] and returns no pairs at all. -/
theorem classification_failure_aborts_witness :
    processTypes tagMap
        ([Stmt.decl "ok" strType DEFAULT_FILE_NAME] ++
          Stmt.decl "bad" badType DEFAULT_FILE_NAME :: []) entryConfig [] =
      (Except.error (TsError.unknownType [8, 2]), []) := by
  have h := classification_failure_aborts tagMap entryConfig
      [Stmt.decl "ok" strType DEFAULT_FILE_NAME] [] "bad" DEFAULT_FILE_NAME badType
      [("ok", "string")] [] []
      (by simp [visitList, visit, entryConfig, defaultConfig, DEFAULT_FILE_NAME,
            handleDeclaration, M.bind, M.pure, processType, strType, leafType,
            blankData, TsType.data, tagMap])
      (Or.inr (by decide))
      (by decide)
  have hflags : extractFlags badType.data.flags = [8, 2] := by decide
  rw [hflags] at h
  exact h

/-- C3: a namespace/module-like container among the statements is recursed into
  with the same visitor, so the declarations of its body contribute to the
  output sequence, interleaved in document order between the surrounding
  declarations' contributions. -/
theorem namespace_bodies_interleaved {R : Type} (H : TypeMap R) (cfg : TsToIoConfig)
    (pre body post : List Stmt) (fileName : String)
    (rs1 rs2 rs3 : List (String × R)) (w w1 w2 w3 : List String)
    (h1 : visitList H cfg pre w = (Except.ok rs1, w1))
    (hvis : cfg.followImports = true ∨ cfg.fileNames.contains fileName = true)
    (h2 : visitList H cfg body w1 = (Except.ok rs2, w2))
    (h3 : visitList H cfg post w2 = (Except.ok rs3, w3)) :
    processTypes H (pre ++ Stmt.module body fileName :: post) cfg w =
      (Except.ok (rs1 ++ rs2 ++ rs3), w3) := by
  have hguard : (!cfg.followImports && !(cfg.fileNames.contains fileName)) = false := by
    rcases hvis with h | h
    · simp [h]
    · rw [h]; simp
  unfold processTypes
  rw [visitList_append, h1]
  simp only [visitList, visit, hguard, Bool.false_eq_true, if_false, M.bind, M.pure, h2, h3]
  simp [List.append_assoc]

/-- C3 witness: a module body's declaration lands between the top-level
  declarations around it, in document order. -/
theorem namespace_bodies_interleaved_witness :
    processTypes tagMap
        ([Stmt.decl "a" strType DEFAULT_FILE_NAME] ++
          Stmt.module [Stmt.decl "b" numType DEFAULT_FILE_NAME] DEFAULT_FILE_NAME ::
          [Stmt.decl "c" strType DEFAULT_FILE_NAME]) entryConfig [] =
      (Except.ok [("a", "string"), ("b", "number"), ("c", "string")], []) := by
  have h := namespace_bodies_interleaved tagMap entryConfig
      [Stmt.decl "a" strType DEFAULT_FILE_NAME]
      [Stmt.decl "b" numType DEFAULT_FILE_NAME]
      [Stmt.decl "c" strType DEFAULT_FILE_NAME] DEFAULT_FILE_NAME
      [("a", "string")] [("b", "number")] [("c", "string")] [] [] [] []
      (by simp [visitList, visit, entryConfig, defaultConfig, DEFAULT_FILE_NAME,
            handleDeclaration, M.bind, M.pure, processType, strType, leafType,
            blankData, TsType.data, tagMap])
      (Or.inr (by decide))
      (by simp [visitList, visit, entryConfig, defaultConfig, DEFAULT_FILE_NAME,
            handleDeclaration, M.bind, M.pure, processType, numType, leafType,
            blankData, TsType.data, tagMap])
      (by simp [visitList, visit, entryConfig, defaultConfig, DEFAULT_FILE_NAME,
            handleDeclaration, M.bind, M.pure, processType, strType, leafType,
            blankData, TsType.data, tagMap])
  simpa using h

/-- C6: nested types are passed only inside zero-argument thunks, so a handler
  set whose nested-structure handlers (record, union, intersection, tuple,
  array, string/number-indexed object, object) all discard their thunks makes
  the fold's outcome independent of every nested type: two handles with the
  same top-level data fold identically, whatever their nested structure — no
  classification or folding work happens for a discarded branch. -/
theorem discarded_thunk_no_fold {R : Type} (H : TypeMap R) (t t' : TsType)
    (cr cu ci ct ca cs cn co : M R)
    (hrec : H.record = fun _ => cr) (hun : H.union = fun _ => cu)
    (hin : H.intersection = fun _ => ci) (htu : H.tuple = fun _ => ct)
    (har : H.array = fun _ => ca) (hsi : H.stringIndexObject = fun _ => cs)
    (hni : H.numberIndexObject = fun _ => cn) (hob : H.object = fun _ => co)
    (hdata : t.data = t'.data) :
    processType H t = processType H t' := by
  simp only [processType, processObjectType, hrec, hun, hin, htu, har, hsi, hni, hob, ← hdata]

/-- C6 witness: with the thunk-discarding `tagMap`, an array whose element
  handle is unclassifiable folds exactly like an array of string — while
  folding that element directly would abort with the flag-carrying error. -/
theorem discarded_thunk_no_fold_witness :
    processType tagMap arrayOfBadType = processType tagMap arrayOfStrType ∧
    processType tagMap badType [] =
      (Except.error (TsError.unknownType (extractFlags badType.data.flags)), []) :=
  ⟨discarded_thunk_no_fold tagMap arrayOfBadType arrayOfStrType
      (M.pure "record") (M.pure "union") (M.pure "intersection") (M.pure "tuple")
      (M.pure "array") (M.pure "stringIndexObject") (M.pure "numberIndexObject")
      (M.pure "object") rfl rfl rfl rfl rfl rfl rfl rfl rfl,
   processType_unclassified tagMap badType (by decide) []⟩
